import Mathlib

set_option linter.unusedSectionVars false

/-!
Verification of the change-request approval workflow, the role model and the
category-coercion heuristic of the prompt-enhancer repository.

The embedding is a shallow one:

* `app/models/change_request.py` becomes the inductive types `PromptType`,
  `ChangeRequestStatus` and the structure `ChangeRequest`.
* `app/services/change_request_service.py` becomes pure state-passing
  functions over `ServiceState`: the directory of change-request JSON files
  is a list of records keyed by `id`, the three live prompt documents are a
  function `PromptType → Option C` (where `none` models an absent file and
  `C` abstracts the JSON document type, compared structurally exactly as
  Python compares parsed JSON dicts).  `datetime.now()` and the generated
  `uuid` become explicit `now`/`newId` arguments.  Each operation returns
  the `Except` result together with the post-state; an operation that raises
  before mutating returns the input state unchanged.
* `app/services/user_service.py` becomes functions over a list of user
  records.
* `app/agents/analysis_agent.py` (the category-coercion heuristic) becomes
  `coerceCategoryFromExcerpt` and `applyCategoryCheck`.
-/

namespace PromptEnhancer

/-- `PromptType` from `app/models/change_request.py`. -/
inductive PromptType where
  | CATEGORY_DEFINITIONS
  | FEW_SHOTS
  | SYSTEM_PROMPT
deriving DecidableEq, Repr

/-- `ChangeRequestStatus` from `app/models/change_request.py`. -/
inductive ChangeRequestStatus where
  | PENDING
  | APPROVED
  | REJECTED
deriving DecidableEq, Repr

/-- `ChangeRequest` from `app/models/change_request.py`.  The JSON document
type `dict[str, Any]` is abstracted by the parameter `C`; `datetime` fields
are abstracted as `Nat` timestamps. -/
structure ChangeRequest (C : Type) where
  id : String
  workspace_id : String
  prompt_type : PromptType
  submitted_by : String
  submitted_at : Nat
  status : ChangeRequestStatus
  current_content : C
  proposed_content : C
  description : Option String := none
  reviewed_by : Option String := none
  reviewed_at : Option Nat := none
  review_feedback : Option String := none
deriving DecidableEq, Repr

/-- The error taxonomy of `app/services/change_request_service.py`:
`ChangeRequestNotFoundError`, `ChangeRequestConflictError`,
`InvalidChangeRequestStateError`, `DuplicatePendingRequestError`, each with
the data its Python constructor stores. -/
inductive CRError where
  | notFound (request_id : String)
  | conflict (request_id : String) (message : String)
  | invalidState (request_id : String) (current_status : ChangeRequestStatus)
      (operation : String)
  | duplicatePending (user_id : String) (prompt_type : PromptType)
deriving DecidableEq, Repr

/-- The durable state the service reads and writes: the live prompt documents
(`none` = file absent) and the `change_requests` directory. -/
structure ServiceState (C : Type) where
  docs : PromptType → Option C
  requests : List (ChangeRequest C)

/-- The message passed to `ChangeRequestConflictError` in
`approve_change_request`. -/
def conflictMessage : String :=
  "The prompt content has changed since this request was created. " ++
  "Please review the changes and create a new request."

variable {C : Type} [DecidableEq C]

/-- `_load_current_content`: the live document for the prompt type, or the
empty default from `_get_empty_content_for_type` (abstracted as the
parameter `empty`) when the file does not exist. -/
def loadCurrentContent (empty : PromptType → C) (s : ServiceState C)
    (prompt_type : PromptType) : C :=
  match s.docs prompt_type with
  | none => empty prompt_type
  | some c => c

/-- `_save_prompt_content`: overwrite the live document for a prompt type. -/
def savePromptContent (s : ServiceState C) (prompt_type : PromptType)
    (content : C) : ServiceState C :=
  { s with docs := fun q => if q = prompt_type then some content else s.docs q }

/-- Writing `{id}.json` in the change-requests directory: replace the record
with the same id, or add the record if none exists. -/
def upsertRequest (rs : List (ChangeRequest C)) (r : ChangeRequest C) :
    List (ChangeRequest C) :=
  if rs.any (fun x => decide (x.id = r.id)) then
    rs.map (fun x => if x.id = r.id then r else x)
  else
    rs ++ [r]

/-- `_save_change_request`. -/
def saveChangeRequest (s : ServiceState C) (r : ChangeRequest C) :
    ServiceState C :=
  { s with requests := upsertRequest s.requests r }

/-- Reading `{request_id}.json`. -/
def findRequest (s : ServiceState C) (request_id : String) :
    Option (ChangeRequest C) :=
  s.requests.find? (fun r => decide (r.id = request_id))

/-- `get_change_request`. -/
def getChangeRequest (s : ServiceState C) (request_id : String) :
    Except CRError (ChangeRequest C) :=
  match findRequest s request_id with
  | none => .error (.notFound request_id)
  | some r => .ok r

/-- `has_pending_request`. -/
def hasPendingRequest (s : ServiceState C) (user_id : String)
    (prompt_type : PromptType) : Bool :=
  s.requests.any (fun r =>
    decide (r.submitted_by = user_id) && decide (r.prompt_type = prompt_type) &&
    decide (r.status = ChangeRequestStatus.PENDING))

/-- `count_pending_requests`. -/
def countPendingRequests (s : ServiceState C) : Nat :=
  (s.requests.filter (fun r =>
    decide (r.status = ChangeRequestStatus.PENDING))).length

/-- `create_change_request`.  `newId` stands for the generated
`cr-{uuid4().hex[:8]}` and `now` for `datetime.now()`. -/
def createChangeRequest (empty : PromptType → C) (s : ServiceState C)
    (user_id : String) (prompt_type : PromptType) (proposed_content : C)
    (description : Option String) (newId : String) (now : Nat) :
    Except CRError (ChangeRequest C) × ServiceState C :=
  if hasPendingRequest s user_id prompt_type then
    (.error (.duplicatePending user_id prompt_type), s)
  else
    let current_content := loadCurrentContent empty s prompt_type
    let r : ChangeRequest C :=
      { id := newId
        workspace_id := "organization"
        prompt_type := prompt_type
        submitted_by := user_id
        submitted_at := now
        status := .PENDING
        current_content := current_content
        proposed_content := proposed_content
        description := description }
    (.ok r, saveChangeRequest s r)

/-- `approve_change_request`. -/
def approveChangeRequest (empty : PromptType → C) (s : ServiceState C)
    (request_id reviewer_id : String) (feedback : Option String) (now : Nat) :
    Except CRError (ChangeRequest C) × ServiceState C :=
  match getChangeRequest s request_id with
  | .error e => (.error e, s)
  | .ok r =>
    let current_content := loadCurrentContent empty s r.prompt_type
    if current_content ≠ r.current_content then
      (.error (.conflict request_id conflictMessage), s)
    else
      let s1 := savePromptContent s r.prompt_type r.proposed_content
      let r1 := { r with
        status := .APPROVED
        reviewed_by := some reviewer_id
        reviewed_at := some now
        review_feedback := feedback }
      (.ok r1, saveChangeRequest s1 r1)

/-- `reject_change_request`. -/
def rejectChangeRequest (s : ServiceState C) (request_id reviewer_id : String)
    (feedback : Option String) (now : Nat) :
    Except CRError (ChangeRequest C) × ServiceState C :=
  match getChangeRequest s request_id with
  | .error e => (.error e, s)
  | .ok r =>
    let r1 := { r with
      status := ChangeRequestStatus.REJECTED
      reviewed_by := some reviewer_id
      reviewed_at := some now
      review_feedback := feedback }
    (.ok r1, saveChangeRequest s r1)

/-- `revise_change_request`. -/
def reviseChangeRequest (empty : PromptType → C) (s : ServiceState C)
    (request_id : String) (proposed_content : C) (description : Option String) :
    Except CRError (ChangeRequest C) × ServiceState C :=
  match getChangeRequest s request_id with
  | .error e => (.error e, s)
  | .ok r =>
    if r.status ≠ ChangeRequestStatus.REJECTED then
      (.error (.invalidState request_id r.status "revise"), s)
    else
      let current_content := loadCurrentContent empty s r.prompt_type
      let r1 := { r with
        status := ChangeRequestStatus.PENDING
        proposed_content := proposed_content
        current_content := current_content
        description := description
        reviewed_by := none
        reviewed_at := none
        review_feedback := none }
      (.ok r1, saveChangeRequest s r1)

/-- `withdraw_change_request`: deletes the record file. -/
def withdrawChangeRequest (s : ServiceState C) (request_id : String) :
    Except CRError Unit × ServiceState C :=
  match getChangeRequest s request_id with
  | .error e => (.error e, s)
  | .ok r =>
    if r.status ≠ ChangeRequestStatus.PENDING then
      (.error (.invalidState request_id r.status "withdraw"), s)
    else
      (.ok (),
       { s with requests := s.requests.filter (fun x => !decide (x.id = request_id)) })

/-- The caller-side status guard of the approve route
(`app/routes/change_requests.py`, the `status != PENDING` check): `true`
means the route answers 409 without calling the service. -/
def routeApproveStatusBlocked (r : ChangeRequest C) : Bool :=
  decide (r.status ≠ ChangeRequestStatus.PENDING)

/-! ## Role model (`app/services/user_service.py`) -/

/-- `UserRole` from `app/models/auth.py`. -/
inductive UserRole where
  | USER
  | APPROVER
deriving DecidableEq, Repr

/-- A user record as the role machinery sees it: an id and a role. -/
structure UserRec where
  id : String
  role : UserRole
deriving DecidableEq, Repr

/-- Errors of the user service: `LastApproverError`
(`app/services/user_service.py`) and `UserNotFoundError` (`app/db.py`). -/
inductive UserError where
  | lastApprover
  | userNotFound (identifier : String)
deriving DecidableEq, Repr

/-- Modelled from the spec: `count_approvers` is imported by
`app/services/user_service.py` from `app.db` but its definition is not under
`src/`; per the spec's Role model it counts the users holding the APPROVER
role. -/
def count_approvers (db : List UserRec) : Nat :=
  (db.filter (fun u => decide (u.role = UserRole.APPROVER))).length

/-- Modelled from the spec: the role-aware `get_user_by_id` used by
`app/services/user_service.py` (the copy in `src/app/db.py` predates the
role column); it looks the user up by id and raises `UserNotFoundError`
(here: `none`) when absent. -/
def get_user_by_id (db : List UserRec) (user_id : String) : Option UserRec :=
  db.find? (fun u => decide (u.id = user_id))

/-- Modelled from the spec: the db-level `update_user_role` imported by
`app/services/user_service.py` from `app.db` but missing from `src/`; it
stores the new role for the user with the given id. -/
def db_update_user_role (db : List UserRec) (user_id : String)
    (role : UserRole) : List UserRec :=
  db.map (fun u => if u.id = user_id then { u with role := role } else u)

/-- `UserService._is_demoting_last_approver`. -/
def isDemotingLastApprover (db : List UserRec) (user : UserRec)
    (new_role : UserRole) : Bool :=
  if user.role ≠ UserRole.APPROVER then false
  else if new_role = UserRole.APPROVER then false
  else decide (count_approvers db = 1)

/-- `UserService.update_user_role`: look the user up, refuse to demote the
last approver, otherwise persist the new role and return the re-read user. -/
def update_user_role (db : List UserRec) (user_id : String) (role : UserRole) :
    Except UserError UserRec × List UserRec :=
  match get_user_by_id db user_id with
  | none => (.error (.userNotFound user_id), db)
  | some current_user =>
    if isDemotingLastApprover db current_user role then
      (.error .lastApprover, db)
    else
      let db1 := db_update_user_role db user_id role
      match get_user_by_id db1 user_id with
      | none => (.error (.userNotFound user_id), db1)
      | some u => (.ok u, db1)

/-! ## Category-coercion heuristic (`app/agents/analysis_agent.py`) -/

/-- `ReasoningRow` from `app/models/feedback.py`. -/
structure ReasoningRow where
  category_excerpt : String
  news_excerpt : String
  reasoning : String
deriving DecidableEq, Repr

/-- `CategoryDefinition` from `app/models/prompts.py`. -/
structure CategoryDefinition where
  name : String
  definition : String
deriving DecidableEq, Repr

/-- `AIInsight` from `app/models/feedback.py`.  The `confidence : float`
field is never inspected by the coercion code, so it is abstracted by the
parameter `Conf`. -/
structure AIInsight (Conf : Type) where
  category : String
  reasoning_table : List ReasoningRow
  confidence : Conf
deriving DecidableEq, Repr

/-- The `ValueError` raised by `AnalysisAgent.analyze` when the category is
out of vocabulary and coercion fails, carrying the offending category. -/
inductive AnalysisError where
  | categoryNotAllowed (category : String)
deriving DecidableEq, Repr

/-- Python's `str.strip()`: drop leading and trailing whitespace.  Defined
structurally over the character list (rather than through `String.trim`,
which is well-founded recursion and does not evaluate inside the kernel);
it agrees with `.strip()` on whitespace-stripping. -/
def pyStrip (s : String) : String :=
  String.mk
    (((s.data.dropWhile Char.isWhitespace).reverse.dropWhile
      Char.isWhitespace).reverse)

/-- The inner-loop body of `_coerce_category_from_excerpt`: the score a
single category definition gets from the reasoning rows — the length of the
longest stripped non-empty `category_excerpt` occurring verbatim inside the
definition, `0` when none matches. -/
def scoreForCat (rows : List ReasoningRow) (definition : String) : Nat :=
  rows.foldl (fun acc row =>
    let excerpt := pyStrip row.category_excerpt
    if excerpt.isEmpty then acc
    else if excerpt.data <:+: definition.data then max acc excerpt.length
    else acc) 0

/-- The `for cat in categories` loop of `_coerce_category_from_excerpt`,
threading `best_category`, `best_score` and `tie`. -/
def coerceLoop (rows : List ReasoningRow) :
    List CategoryDefinition → Option String → Nat → Bool →
    Option String × Nat × Bool
  | [], best, score, tie => (best, score, tie)
  | cat :: cats, best, score, tie =>
    if cat.definition.isEmpty then coerceLoop rows cats best score tie
    else
      let sc := scoreForCat rows cat.definition
      if score < sc then coerceLoop rows cats (some cat.name) sc false
      else if sc = score ∧ sc ≠ 0 then coerceLoop rows cats best score true
      else coerceLoop rows cats best score tie

/-- `AnalysisAgent._coerce_category_from_excerpt`. -/
def coerceCategoryFromExcerpt {Conf : Type} (insight : AIInsight Conf)
    (categories : List CategoryDefinition) : Option String :=
  if insight.reasoning_table.isEmpty then none
  else
    match coerceLoop insight.reasoning_table categories none 0 false with
    | (best, score, tie) => if tie || decide (score = 0) then none else best

/-- The category-validation tail of `AnalysisAgent.analyze`: accept the
insight when its category is allowed, otherwise try coercion.  The Python
guard is `if coerced:` — truthiness on `str | None` — so both `None` and an
empty winning name fall through to the `ValueError`. -/
def applyCategoryCheck {Conf : Type} (categories : List CategoryDefinition)
    (insight : AIInsight Conf) : Except AnalysisError (AIInsight Conf) :=
  if (categories.map (fun c => c.name)).contains insight.category then
    .ok insight
  else
    match coerceCategoryFromExcerpt insight categories with
    | some coerced =>
      if coerced.isEmpty then .error (.categoryNotAllowed insight.category)
      else .ok { insight with category := coerced }
    | none => .error (.categoryNotAllowed insight.category)

/-! Specification-side restatement of the coercion heuristic (spec §4.4),
used only to compare against `coerceCategoryFromExcerpt`. -/

/-- The candidate categories: those with non-empty definition (spec §4.4
step 1). -/
def eligibleCats (cats : List CategoryDefinition) : List CategoryDefinition :=
  cats.filter (fun c => !c.definition.isEmpty)

/-- The best score over the candidate categories (spec §4.4 step 2). -/
def maxCatScore (rows : List ReasoningRow) :
    List CategoryDefinition → Nat
  | [] => 0
  | c :: cs =>
    if c.definition.isEmpty then maxCatScore rows cs
    else max (scoreForCat rows c.definition) (maxCatScore rows cs)

/-- The candidate categories achieving a given score. -/
def achieversAt (rows : List ReasoningRow) (cats : List CategoryDefinition)
    (s : Nat) : List CategoryDefinition :=
  (eligibleCats cats).filter (fun c => decide (scoreForCat rows c.definition = s))

/-- Spec §4.4 steps 2–4 restated: coercion fails when the best score is `0`
or two candidate categories tie at the best nonzero score; otherwise the
unique best-scoring category's name wins. -/
def coerceSpec (rows : List ReasoningRow) (cats : List CategoryDefinition) :
    Option String :=
  let best := maxCatScore rows cats
  if best = 0 ∨ 2 ≤ (achieversAt rows cats best).length then none
  else (achieversAt rows cats best).head?.map (fun c => c.name)

/-! ## Helper lemmas about the repository model -/

theorem find?_map_replace (rs : List (ChangeRequest C)) (r : ChangeRequest C)
    (h : rs.any (fun x => decide (x.id = r.id)) = true) :
    (rs.map (fun x => if x.id = r.id then r else x)).find?
      (fun x => decide (x.id = r.id)) = some r := by
  induction rs with
  | nil => simp at h
  | cons y t ih =>
    by_cases hy : y.id = r.id
    · simp [hy]
    · have h2 : t.any (fun x => decide (x.id = r.id)) = true := by
        simpa [hy] using h
      simpa [hy] using ih h2

theorem find?_append_new (rs : List (ChangeRequest C)) (r : ChangeRequest C)
    (h : rs.any (fun x => decide (x.id = r.id)) = false) :
    (rs ++ [r]).find? (fun x => decide (x.id = r.id)) = some r := by
  induction rs with
  | nil => simp
  | cons y t ih =>
    have hy : ¬ y.id = r.id := by
      intro hc
      simp [hc] at h
    have h2 : t.any (fun x => decide (x.id = r.id)) = false := by
      simpa [hy] using h
    simpa [hy] using ih h2

theorem find?_upsert_self (rs : List (ChangeRequest C)) (r : ChangeRequest C) :
    (upsertRequest rs r).find? (fun x => decide (x.id = r.id)) = some r := by
  unfold upsertRequest
  by_cases h : rs.any (fun x => decide (x.id = r.id)) = true
  · rw [if_pos h]
    exact find?_map_replace rs r h
  · rw [if_neg h]
    exact find?_append_new rs r (Bool.eq_false_iff.mpr h)

theorem mem_upsert_self (rs : List (ChangeRequest C)) (r : ChangeRequest C) :
    r ∈ upsertRequest rs r := by
  unfold upsertRequest
  by_cases h : rs.any (fun x => decide (x.id = r.id)) = true
  · rw [if_pos h]
    rcases List.any_eq_true.mp h with ⟨x, hx, hxid⟩
    have hxid2 : x.id = r.id := by simpa using hxid
    exact List.mem_map.mpr ⟨x, hx, by simp [hxid2]⟩
  · rw [if_neg h]
    simp

theorem findRequest_some_id {s : ServiceState C} {request_id : String}
    {r : ChangeRequest C} (h : findRequest s request_id = some r) :
    r.id = request_id := by
  have := List.find?_some h
  simpa using this

theorem getChangeRequest_ok_iff {s : ServiceState C} {request_id : String}
    {r : ChangeRequest C} :
    getChangeRequest s request_id = .ok r ↔ findRequest s request_id = some r := by
  unfold getChangeRequest
  cases h : findRequest s request_id <;> simp

theorem getChangeRequest_saveChangeRequest (s : ServiceState C)
    (r : ChangeRequest C) :
    getChangeRequest (saveChangeRequest s r) r.id = .ok r := by
  rw [getChangeRequest_ok_iff]
  unfold findRequest saveChangeRequest
  exact find?_upsert_self s.requests r

theorem requests_savePromptContent (s : ServiceState C) (pt : PromptType)
    (c : C) : (savePromptContent s pt c).requests = s.requests := rfl

theorem docs_saveChangeRequest (s : ServiceState C) (r : ChangeRequest C) :
    (saveChangeRequest s r).docs = s.docs := rfl

theorem loadCurrentContent_savePromptContent (empty : PromptType → C)
    (s : ServiceState C) (pt : PromptType) (c : C) :
    loadCurrentContent empty (savePromptContent s pt c) pt = c := by
  simp [loadCurrentContent, savePromptContent]

theorem hasPending_of_mem {s : ServiceState C} {r : ChangeRequest C}
    {user_id : String} {prompt_type : PromptType} (hm : r ∈ s.requests)
    (h1 : r.submitted_by = user_id) (h2 : r.prompt_type = prompt_type)
    (h3 : r.status = ChangeRequestStatus.PENDING) :
    hasPendingRequest s user_id prompt_type = true := by
  unfold hasPendingRequest
  rw [List.any_eq_true]
  exact ⟨r, hm, by simp [h1, h2, h3]⟩

theorem find?_filter_ne (rs : List (ChangeRequest C)) (request_id : String) :
    (rs.filter (fun x => !decide (x.id = request_id))).find?
      (fun x => decide (x.id = request_id)) = none := by
  rw [List.find?_eq_none]
  intro x hx
  have := (List.mem_filter.mp hx).2
  simpa using this

theorem all_filter_ne (rs : List (ChangeRequest C)) (request_id : String) :
    (rs.filter (fun x => !decide (x.id = request_id))).all
      (fun x => !decide (x.id = request_id)) = true := by
  rw [List.all_eq_true]
  intro x hx
  exact (List.mem_filter.mp hx).2

/-- The successful branch of `approve_change_request`, fully spelled out. -/
theorem approve_ok_eq (empty : PromptType → C) (s : ServiceState C)
    (request_id reviewer_id : String) (feedback : Option String) (now : Nat)
    (r : ChangeRequest C) (hget : getChangeRequest s request_id = .ok r)
    (heq : loadCurrentContent empty s r.prompt_type = r.current_content) :
    approveChangeRequest empty s request_id reviewer_id feedback now =
      (.ok { r with
              status := ChangeRequestStatus.APPROVED
              reviewed_by := some reviewer_id
              reviewed_at := some now
              review_feedback := feedback },
       saveChangeRequest (savePromptContent s r.prompt_type r.proposed_content)
         { r with
            status := ChangeRequestStatus.APPROVED
            reviewed_by := some reviewer_id
            reviewed_at := some now
            review_feedback := feedback }) := by
  unfold approveChangeRequest
  rw [hget]
  simp [heq]

/-- The conflict branch of `approve_change_request`: the error is returned
and the state is exactly the input state. -/
theorem approve_conflict_eq (empty : PromptType → C) (s : ServiceState C)
    (request_id reviewer_id : String) (feedback : Option String) (now : Nat)
    (r : ChangeRequest C) (hget : getChangeRequest s request_id = .ok r)
    (hne : loadCurrentContent empty s r.prompt_type ≠ r.current_content) :
    approveChangeRequest empty s request_id reviewer_id feedback now =
      (.error (.conflict request_id conflictMessage), s) := by
  unfold approveChangeRequest
  rw [hget]
  simp [hne]

/-! ## Concrete example states used by the witnesses -/

/-- A concrete empty-content table (content abstracted as `Nat`). -/
def exEmpty : PromptType → Nat := fun _ => 0

/-- A pending request whose snapshot (4) disagrees with the live document. -/
def rex1 : ChangeRequest Nat :=
  { id := "r1", workspace_id := "organization",
    prompt_type := PromptType.CATEGORY_DEFINITIONS, submitted_by := "alice",
    submitted_at := 1, status := ChangeRequestStatus.PENDING,
    current_content := 4, proposed_content := 9 }

def sex1 : ServiceState Nat :=
  { docs := fun _ => some 5, requests := [rex1] }

/-- A pending request whose snapshot (5) matches the live document. -/
def rex2 : ChangeRequest Nat :=
  { id := "r2", workspace_id := "organization",
    prompt_type := PromptType.FEW_SHOTS, submitted_by := "alice",
    submitted_at := 2, status := ChangeRequestStatus.PENDING,
    current_content := 5, proposed_content := 9 }

def sex2 : ServiceState Nat :=
  { docs := fun _ => some 5, requests := [rex2] }

/-- An approved request whose snapshot matches the live document. -/
def rex3 : ChangeRequest Nat :=
  { id := "r3", workspace_id := "organization",
    prompt_type := PromptType.SYSTEM_PROMPT, submitted_by := "alice",
    submitted_at := 3, status := ChangeRequestStatus.APPROVED,
    current_content := 5, proposed_content := 9,
    reviewed_by := some "bob", reviewed_at := some 3,
    review_feedback := some "good" }

def sex3 : ServiceState Nat :=
  { docs := fun _ => some 5, requests := [rex3] }

/-- A rejected request: the live document (5) differs from its stale
snapshot (4). -/
def rex4 : ChangeRequest Nat :=
  { id := "r4", workspace_id := "organization",
    prompt_type := PromptType.CATEGORY_DEFINITIONS, submitted_by := "alice",
    submitted_at := 4, status := ChangeRequestStatus.REJECTED,
    current_content := 4, proposed_content := 6, description := some "old",
    reviewed_by := some "bob", reviewed_at := some 3,
    review_feedback := some "no" }

def sex4 : ServiceState Nat :=
  { docs := fun _ => some 5, requests := [rex4] }

/-- A state with no request by user `carol`. -/
def sex5 : ServiceState Nat :=
  { docs := fun _ => some 5, requests := [rex3] }

/-- A rejected request whose snapshot matches the live document. -/
def rex6 : ChangeRequest Nat :=
  { id := "r6", workspace_id := "organization",
    prompt_type := PromptType.FEW_SHOTS, submitted_by := "alice",
    submitted_at := 6, status := ChangeRequestStatus.REJECTED,
    current_content := 5, proposed_content := 8,
    reviewed_by := some "bob", reviewed_at := some 3,
    review_feedback := some "no" }

def sex6 : ServiceState Nat :=
  { docs := fun _ => some 5, requests := [rex6] }

/-! ## Claims -/

/-- C1: for every stored change request `r`, if the live document for `r`'s
content type does not structurally equal `r`'s `current_content` snapshot,
then approve raises `ChangeRequestConflictError` and performs no mutation:
the returned state is exactly the input state, so the live document, `r`'s
stored record and all other state are unchanged. -/
theorem approve_conflict_raises_and_mutates_nothing (empty : PromptType → C)
    (s : ServiceState C) (request_id reviewer_id : String)
    (feedback : Option String) (now : Nat) (r : ChangeRequest C)
    (hget : getChangeRequest s request_id = .ok r)
    (hne : loadCurrentContent empty s r.prompt_type ≠ r.current_content) :
    approveChangeRequest empty s request_id reviewer_id feedback now =
      (.error (.conflict request_id conflictMessage), s) :=
  approve_conflict_eq empty s request_id reviewer_id feedback now r hget hne

theorem approve_conflict_raises_and_mutates_nothing_witness :
    getChangeRequest sex1 "r1" = .ok rex1 ∧
    loadCurrentContent exEmpty sex1 rex1.prompt_type ≠ rex1.current_content ∧
    approveChangeRequest exEmpty sex1 "r1" "rev" none 7 =
      (.error (.conflict "r1" conflictMessage), sex1) :=
  ⟨by rfl, by decide,
   approve_conflict_raises_and_mutates_nothing exEmpty sex1 "r1" "rev" none 7
     rex1 (by rfl) (by decide)⟩

/-- C2: for every stored change request `r` whose live document equals the
`current_content` snapshot, approve succeeds: the result is `r` with status
APPROVED and the review fields set, the live document afterwards equals
`proposed_content`, and the updated record is what is stored under the
request id. -/
theorem approve_success_applies_and_records (empty : PromptType → C)
    (s : ServiceState C) (request_id reviewer_id : String)
    (feedback : Option String) (now : Nat) (r : ChangeRequest C)
    (hget : getChangeRequest s request_id = .ok r)
    (heq : loadCurrentContent empty s r.prompt_type = r.current_content) :
    (approveChangeRequest empty s request_id reviewer_id feedback now).1 =
      .ok { r with
             status := ChangeRequestStatus.APPROVED
             reviewed_by := some reviewer_id
             reviewed_at := some now
             review_feedback := feedback } ∧
    loadCurrentContent empty
        (approveChangeRequest empty s request_id reviewer_id feedback now).2
        r.prompt_type = r.proposed_content ∧
    getChangeRequest
        (approveChangeRequest empty s request_id reviewer_id feedback now).2
        request_id =
      .ok { r with
             status := ChangeRequestStatus.APPROVED
             reviewed_by := some reviewer_id
             reviewed_at := some now
             review_feedback := feedback } := by
  have h := approve_ok_eq empty s request_id reviewer_id feedback now r hget heq
  refine ⟨by rw [h], ?_, ?_⟩
  · rw [h]
    simp [loadCurrentContent, saveChangeRequest, savePromptContent]
  · rw [h]
    have hid : r.id = request_id :=
      findRequest_some_id (getChangeRequest_ok_iff.mp hget)
    have hid1 : ({ r with
        status := ChangeRequestStatus.APPROVED
        reviewed_by := some reviewer_id
        reviewed_at := some now
        review_feedback := feedback } : ChangeRequest C).id = request_id := hid
    rw [← hid1]
    exact getChangeRequest_saveChangeRequest _ _

theorem approve_success_applies_and_records_witness :
    getChangeRequest sex2 "r2" = .ok rex2 ∧
    loadCurrentContent exEmpty sex2 rex2.prompt_type = rex2.current_content ∧
    ((approveChangeRequest exEmpty sex2 "r2" "bob" (some "ok") 7).1 =
        .ok { rex2 with
               status := ChangeRequestStatus.APPROVED
               reviewed_by := some "bob"
               reviewed_at := some 7
               review_feedback := some "ok" } ∧
      loadCurrentContent exEmpty
          (approveChangeRequest exEmpty sex2 "r2" "bob" (some "ok") 7).2
          rex2.prompt_type = rex2.proposed_content ∧
      getChangeRequest
          (approveChangeRequest exEmpty sex2 "r2" "bob" (some "ok") 7).2
          "r2" =
        .ok { rex2 with
               status := ChangeRequestStatus.APPROVED
               reviewed_by := some "bob"
               reviewed_at := some 7
               review_feedback := some "ok" }) :=
  ⟨by rfl, by decide,
   approve_success_applies_and_records exEmpty sex2 "r2" "bob" (some "ok") 7
     rex2 (by rfl) (by decide)⟩

/-- C3 counterexample: the claim says no state-machine operation changes the
status of an APPROVED request, but `reject_change_request` has no status
precondition: on the concrete approved request `rex3` it succeeds and stores
status REJECTED. -/
theorem approved_status_changed_by_reject_counterexample :
    getChangeRequest sex3 "r3" = .ok rex3 ∧
    rex3.status = ChangeRequestStatus.APPROVED ∧
    getChangeRequest (rejectChangeRequest sex3 "r3" "rev" none 9).2 "r3" =
      .ok { rex3 with
             status := ChangeRequestStatus.REJECTED
             reviewed_by := some "rev"
             reviewed_at := some 9
             review_feedback := none } ∧
    ChangeRequestStatus.REJECTED ≠ ChangeRequestStatus.APPROVED :=
  ⟨by rfl, by rfl, by rfl, by decide⟩

/-- C3 amended: APPROVED is terminal with respect to approve, revise and
withdraw — revise and withdraw raise `InvalidChangeRequestStateError` without
mutating, and approve either fails with a conflict (no mutation) or succeeds
leaving the stored status APPROVED — but reject has no status precondition
and moves an APPROVED request to REJECTED. -/
theorem approved_terminal_except_reject (empty : PromptType → C)
    (s : ServiceState C) (request_id reviewer_id : String)
    (feedback : Option String) (now : Nat) (proposed : C)
    (description : Option String) (r : ChangeRequest C)
    (hget : getChangeRequest s request_id = .ok r)
    (hst : r.status = ChangeRequestStatus.APPROVED) :
    reviseChangeRequest empty s request_id proposed description =
      (.error (.invalidState request_id r.status "revise"), s) ∧
    withdrawChangeRequest s request_id =
      (.error (.invalidState request_id r.status "withdraw"), s) ∧
    (approveChangeRequest empty s request_id reviewer_id feedback now =
        (.error (.conflict request_id conflictMessage), s) ∨
      getChangeRequest
          (approveChangeRequest empty s request_id reviewer_id feedback now).2
          request_id =
        .ok { r with
               status := ChangeRequestStatus.APPROVED
               reviewed_by := some reviewer_id
               reviewed_at := some now
               review_feedback := feedback }) ∧
    getChangeRequest
        (rejectChangeRequest s request_id reviewer_id feedback now).2
        request_id =
      .ok { r with
             status := ChangeRequestStatus.REJECTED
             reviewed_by := some reviewer_id
             reviewed_at := some now
             review_feedback := feedback } := by
  have hid : r.id = request_id :=
    findRequest_some_id (getChangeRequest_ok_iff.mp hget)
  refine ⟨?_, ?_, ?_, ?_⟩
  · unfold reviseChangeRequest
    rw [hget]
    simp [hst]
  · unfold withdrawChangeRequest
    rw [hget]
    simp [hst]
  · by_cases hc : loadCurrentContent empty s r.prompt_type = r.current_content
    · right
      rw [approve_ok_eq empty s request_id reviewer_id feedback now r hget hc]
      have hid1 : ({ r with
          status := ChangeRequestStatus.APPROVED
          reviewed_by := some reviewer_id
          reviewed_at := some now
          review_feedback := feedback } : ChangeRequest C).id = request_id := hid
      rw [← hid1]
      exact getChangeRequest_saveChangeRequest _ _
    · left
      exact approve_conflict_eq empty s request_id reviewer_id feedback now r
        hget hc
  · unfold rejectChangeRequest
    rw [hget]
    have hid1 : ({ r with
        status := ChangeRequestStatus.REJECTED
        reviewed_by := some reviewer_id
        reviewed_at := some now
        review_feedback := feedback } : ChangeRequest C).id = request_id := hid
    rw [← hid1]
    exact getChangeRequest_saveChangeRequest _ _

theorem approved_terminal_except_reject_witness :
    getChangeRequest sex3 "r3" = .ok rex3 ∧
    rex3.status = ChangeRequestStatus.APPROVED ∧
    (reviseChangeRequest exEmpty sex3 "r3" 7 none =
        (.error (.invalidState "r3" rex3.status "revise"), sex3) ∧
      withdrawChangeRequest sex3 "r3" =
        (.error (.invalidState "r3" rex3.status "withdraw"), sex3) ∧
      (approveChangeRequest exEmpty sex3 "r3" "rev" none 9 =
          (.error (.conflict "r3" conflictMessage), sex3) ∨
        getChangeRequest
            (approveChangeRequest exEmpty sex3 "r3" "rev" none 9).2 "r3" =
          .ok { rex3 with
                 status := ChangeRequestStatus.APPROVED
                 reviewed_by := some "rev"
                 reviewed_at := some 9
                 review_feedback := none }) ∧
      getChangeRequest (rejectChangeRequest sex3 "r3" "rev" none 9).2 "r3" =
        .ok { rex3 with
               status := ChangeRequestStatus.REJECTED
               reviewed_by := some "rev"
               reviewed_at := some 9
               review_feedback := none }) :=
  ⟨by rfl, by rfl,
   approved_terminal_except_reject exEmpty sex3 "r3" "rev" none 9 7 none rex3
     (by rfl) (by rfl)⟩

/-- C4: create raises `DuplicatePendingRequestError` (naming the user and the
conflicting prompt type) exactly when a PENDING request by the same user for
the same prompt type already exists; after a successful create,
`has_pending_request` is true and an immediately following second create for
the same pair fails with the same error. -/
theorem create_duplicate_pending_iff (empty : PromptType → C)
    (s : ServiceState C) (user_id : String) (prompt_type : PromptType)
    (proposed_content : C) (description : Option String) (newId : String)
    (now : Nat) :
    (createChangeRequest empty s user_id prompt_type proposed_content
        description newId now =
        (.error (.duplicatePending user_id prompt_type), s) ↔
      hasPendingRequest s user_id prompt_type = true) ∧
    (hasPendingRequest s user_id prompt_type = false →
      (createChangeRequest empty s user_id prompt_type proposed_content
          description newId now).1 =
        .ok { id := newId
              workspace_id := "organization"
              prompt_type := prompt_type
              submitted_by := user_id
              submitted_at := now
              status := ChangeRequestStatus.PENDING
              current_content := loadCurrentContent empty s prompt_type
              proposed_content := proposed_content
              description := description } ∧
      hasPendingRequest
          (createChangeRequest empty s user_id prompt_type proposed_content
            description newId now).2 user_id prompt_type = true ∧
      ∀ (pc2 : C) (d2 : Option String) (newId2 : String) (now2 : Nat),
        createChangeRequest empty
            (createChangeRequest empty s user_id prompt_type proposed_content
              description newId now).2 user_id prompt_type pc2 d2 newId2 now2 =
          (.error (.duplicatePending user_id prompt_type),
           (createChangeRequest empty s user_id prompt_type proposed_content
             description newId now).2)) := by
  constructor
  · constructor
    · intro h
      by_cases hp : hasPendingRequest s user_id prompt_type = true
      · exact hp
      · exfalso
        have hp2 : hasPendingRequest s user_id prompt_type = false := by
          simpa using hp
        simp [createChangeRequest, hp2] at h
    · intro hp
      simp [createChangeRequest, hp]
  · intro hp
    have hcreate : createChangeRequest empty s user_id prompt_type
        proposed_content description newId now =
        (.ok { id := newId
               workspace_id := "organization"
               prompt_type := prompt_type
               submitted_by := user_id
               submitted_at := now
               status := ChangeRequestStatus.PENDING
               current_content := loadCurrentContent empty s prompt_type
               proposed_content := proposed_content
               description := description },
         saveChangeRequest s
           { id := newId
             workspace_id := "organization"
             prompt_type := prompt_type
             submitted_by := user_id
             submitted_at := now
             status := ChangeRequestStatus.PENDING
             current_content := loadCurrentContent empty s prompt_type
             proposed_content := proposed_content
             description := description }) := by
      simp [createChangeRequest, hp]
    have hafter0 : hasPendingRequest
        (saveChangeRequest s
          { id := newId
            workspace_id := "organization"
            prompt_type := prompt_type
            submitted_by := user_id
            submitted_at := now
            status := ChangeRequestStatus.PENDING
            current_content := loadCurrentContent empty s prompt_type
            proposed_content := proposed_content
            description := description }) user_id prompt_type = true :=
      hasPending_of_mem (mem_upsert_self s.requests _) rfl rfl rfl
    have hafter : hasPendingRequest
        (createChangeRequest empty s user_id prompt_type proposed_content
          description newId now).2 user_id prompt_type = true := by
      rw [hcreate]
      exact hafter0
    refine ⟨by rw [hcreate], hafter, ?_⟩
    intro pc2 d2 newId2 now2
    rw [hcreate]
    simp [createChangeRequest, hafter0]

theorem create_duplicate_pending_iff_witness :
    hasPendingRequest sex5 "carol" PromptType.FEW_SHOTS = false ∧
    (createChangeRequest exEmpty sex5 "carol" PromptType.FEW_SHOTS 9 none
        "n1" 5).1 =
      .ok { id := "n1"
            workspace_id := "organization"
            prompt_type := PromptType.FEW_SHOTS
            submitted_by := "carol"
            submitted_at := 5
            status := ChangeRequestStatus.PENDING
            current_content := loadCurrentContent exEmpty sex5
              PromptType.FEW_SHOTS
            proposed_content := 9
            description := none } ∧
    hasPendingRequest
        (createChangeRequest exEmpty sex5 "carol" PromptType.FEW_SHOTS 9 none
          "n1" 5).2 "carol" PromptType.FEW_SHOTS = true ∧
    createChangeRequest exEmpty
        (createChangeRequest exEmpty sex5 "carol" PromptType.FEW_SHOTS 9 none
          "n1" 5).2 "carol" PromptType.FEW_SHOTS 3 none "n2" 6 =
      (.error (.duplicatePending "carol" PromptType.FEW_SHOTS),
       (createChangeRequest exEmpty sex5 "carol" PromptType.FEW_SHOTS 9 none
         "n1" 5).2) := by
  have h := (create_duplicate_pending_iff exEmpty sex5 "carol"
    PromptType.FEW_SHOTS 9 none "n1" 5).2 (by rfl)
  exact ⟨by rfl, h.1, h.2.1, h.2.2 3 none "n2" 6⟩

/-- C6: revise raises `InvalidChangeRequestStateError` (without mutating)
when the request is not REJECTED, and on a REJECTED request it succeeds:
status becomes PENDING, `current_content` is refreshed to the current live
document, `proposed_content` and `description` are replaced, and the review
fields are cleared; the updated record is what is stored. -/
theorem revise_requires_rejected_and_resets (empty : PromptType → C)
    (s : ServiceState C) (request_id : String) (proposed_content : C)
    (description : Option String) (r : ChangeRequest C)
    (hget : getChangeRequest s request_id = .ok r) :
    (r.status ≠ ChangeRequestStatus.REJECTED →
      reviseChangeRequest empty s request_id proposed_content description =
        (.error (.invalidState request_id r.status "revise"), s)) ∧
    (r.status = ChangeRequestStatus.REJECTED →
      (reviseChangeRequest empty s request_id proposed_content
          description).1 =
        .ok { r with
               status := ChangeRequestStatus.PENDING
               proposed_content := proposed_content
               current_content := loadCurrentContent empty s r.prompt_type
               description := description
               reviewed_by := none
               reviewed_at := none
               review_feedback := none } ∧
      getChangeRequest
          (reviseChangeRequest empty s request_id proposed_content
            description).2 request_id =
        .ok { r with
               status := ChangeRequestStatus.PENDING
               proposed_content := proposed_content
               current_content := loadCurrentContent empty s r.prompt_type
               description := description
               reviewed_by := none
               reviewed_at := none
               review_feedback := none }) := by
  have hid : r.id = request_id :=
    findRequest_some_id (getChangeRequest_ok_iff.mp hget)
  constructor
  · intro hne
    unfold reviseChangeRequest
    rw [hget]
    simp [hne]
  · intro hst
    have hrev : reviseChangeRequest empty s request_id proposed_content
        description =
        (.ok { r with
                status := ChangeRequestStatus.PENDING
                proposed_content := proposed_content
                current_content := loadCurrentContent empty s r.prompt_type
                description := description
                reviewed_by := none
                reviewed_at := none
                review_feedback := none },
         saveChangeRequest s
           { r with
              status := ChangeRequestStatus.PENDING
              proposed_content := proposed_content
              current_content := loadCurrentContent empty s r.prompt_type
              description := description
              reviewed_by := none
              reviewed_at := none
              review_feedback := none }) := by
      unfold reviseChangeRequest
      rw [hget]
      simp [hst]
    refine ⟨by rw [hrev], ?_⟩
    rw [hrev]
    have hid1 : ({ r with
        status := ChangeRequestStatus.PENDING
        proposed_content := proposed_content
        current_content := loadCurrentContent empty s r.prompt_type
        description := description
        reviewed_by := none
        reviewed_at := none
        review_feedback := none } : ChangeRequest C).id = request_id := hid
    rw [← hid1]
    exact getChangeRequest_saveChangeRequest _ _

theorem revise_requires_rejected_and_resets_witness :
    getChangeRequest sex4 "r4" = .ok rex4 ∧
    rex4.status = ChangeRequestStatus.REJECTED ∧
    ((reviseChangeRequest exEmpty sex4 "r4" 8 (some "new")).1 =
        .ok { rex4 with
               status := ChangeRequestStatus.PENDING
               proposed_content := 8
               current_content := loadCurrentContent exEmpty sex4
                 rex4.prompt_type
               description := some "new"
               reviewed_by := none
               reviewed_at := none
               review_feedback := none } ∧
      getChangeRequest (reviseChangeRequest exEmpty sex4 "r4" 8
          (some "new")).2 "r4" =
        .ok { rex4 with
               status := ChangeRequestStatus.PENDING
               proposed_content := 8
               current_content := loadCurrentContent exEmpty sex4
                 rex4.prompt_type
               description := some "new"
               reviewed_by := none
               reviewed_at := none
               review_feedback := none }) :=
  ⟨by rfl, by rfl,
   (revise_requires_rejected_and_resets exEmpty sex4 "r4" 8 (some "new") rex4
     (by rfl)).2 (by rfl)⟩

/-- C7 counterexample: the claim says a successful revise resets
`submitted_at` to the time of the revision, so that it no longer equals the
creation timestamp; but `revise_change_request` never touches
`submitted_at`: on the concrete rejected request `rex4` (created at time 4)
the revised stored record still has `submitted_at = 4`. -/
theorem revise_resets_submitted_at_counterexample :
    rex4.status = ChangeRequestStatus.REJECTED ∧
    rex4.submitted_at = 4 ∧
    (reviseChangeRequest exEmpty sex4 "r4" 8 (some "new")).1 =
      .ok { rex4 with
             status := ChangeRequestStatus.PENDING
             proposed_content := 8
             current_content := 5
             description := some "new"
             reviewed_by := none
             reviewed_at := none
             review_feedback := none } ∧
    ({ rex4 with
        status := ChangeRequestStatus.PENDING
        proposed_content := 8
        current_content := 5
        description := some "new"
        reviewed_by := none
        reviewed_at := none
        review_feedback := none } : ChangeRequest Nat).submitted_at = 4 :=
  ⟨by rfl, by rfl, by rfl, by rfl⟩

/-- C7 amended: a successful revise leaves `submitted_at` unchanged —
`submitted_at` is set at creation only, and the record stored after the
revision carries the original submission timestamp. -/
theorem revise_preserves_submitted_at (empty : PromptType → C)
    (s : ServiceState C) (request_id : String) (proposed_content : C)
    (description : Option String) (r : ChangeRequest C)
    (hget : getChangeRequest s request_id = .ok r)
    (hst : r.status = ChangeRequestStatus.REJECTED) :
    ∃ r1 : ChangeRequest C,
      (reviseChangeRequest empty s request_id proposed_content
          description).1 = .ok r1 ∧
      getChangeRequest
          (reviseChangeRequest empty s request_id proposed_content
            description).2 request_id = .ok r1 ∧
      r1.submitted_at = r.submitted_at := by
  have hid : r.id = request_id :=
    findRequest_some_id (getChangeRequest_ok_iff.mp hget)
  have hrev : reviseChangeRequest empty s request_id proposed_content
      description =
      (.ok { r with
              status := ChangeRequestStatus.PENDING
              proposed_content := proposed_content
              current_content := loadCurrentContent empty s r.prompt_type
              description := description
              reviewed_by := none
              reviewed_at := none
              review_feedback := none },
       saveChangeRequest s
         { r with
            status := ChangeRequestStatus.PENDING
            proposed_content := proposed_content
            current_content := loadCurrentContent empty s r.prompt_type
            description := description
            reviewed_by := none
            reviewed_at := none
            review_feedback := none }) := by
    unfold reviseChangeRequest
    rw [hget]
    simp [hst]
  refine ⟨{ r with
      status := ChangeRequestStatus.PENDING
      proposed_content := proposed_content
      current_content := loadCurrentContent empty s r.prompt_type
      description := description
      reviewed_by := none
      reviewed_at := none
      review_feedback := none }, by rw [hrev], ?_, rfl⟩
  rw [hrev]
  have hid1 : ({ r with
      status := ChangeRequestStatus.PENDING
      proposed_content := proposed_content
      current_content := loadCurrentContent empty s r.prompt_type
      description := description
      reviewed_by := none
      reviewed_at := none
      review_feedback := none } : ChangeRequest C).id = request_id := hid
  rw [← hid1]
  exact getChangeRequest_saveChangeRequest _ _

theorem revise_preserves_submitted_at_witness :
    getChangeRequest sex6 "r6" = .ok rex6 ∧
    rex6.status = ChangeRequestStatus.REJECTED ∧
    ∃ r1 : ChangeRequest Nat,
      (reviseChangeRequest exEmpty sex6 "r6" 9 none).1 = .ok r1 ∧
      getChangeRequest (reviseChangeRequest exEmpty sex6 "r6" 9 none).2
          "r6" = .ok r1 ∧
      r1.submitted_at = rex6.submitted_at :=
  ⟨by rfl, by rfl,
   revise_preserves_submitted_at exEmpty sex6 "r6" 9 none rex6 (by rfl)
     (by rfl)⟩

/-- C8: withdraw raises `InvalidChangeRequestStateError` (without mutating)
when the request is not PENDING; on a PENDING request it permanently deletes
the record — afterwards no stored record carries the id and a subsequent get
raises `ChangeRequestNotFoundError`. -/
theorem withdraw_requires_pending_and_deletes (s : ServiceState C)
    (request_id : String) (r : ChangeRequest C)
    (hget : getChangeRequest s request_id = .ok r) :
    (r.status ≠ ChangeRequestStatus.PENDING →
      withdrawChangeRequest s request_id =
        (.error (.invalidState request_id r.status "withdraw"), s)) ∧
    (r.status = ChangeRequestStatus.PENDING →
      (withdrawChangeRequest s request_id).1 = .ok () ∧
      getChangeRequest (withdrawChangeRequest s request_id).2 request_id =
        .error (.notFound request_id) ∧
      (withdrawChangeRequest s request_id).2.requests.all
        (fun x => !decide (x.id = request_id)) = true) := by
  constructor
  · intro hne
    unfold withdrawChangeRequest
    rw [hget]
    simp [hne]
  · intro hst
    have hw : withdrawChangeRequest s request_id =
        (.ok (),
         { s with requests :=
            s.requests.filter (fun x => !decide (x.id = request_id)) }) := by
      unfold withdrawChangeRequest
      rw [hget]
      simp [hst]
    refine ⟨by rw [hw], ?_, ?_⟩
    · rw [hw]
      unfold getChangeRequest findRequest
      rw [find?_filter_ne]
    · rw [hw]
      exact all_filter_ne s.requests request_id

theorem withdraw_requires_pending_and_deletes_witness :
    getChangeRequest sex2 "r2" = .ok rex2 ∧
    rex2.status = ChangeRequestStatus.PENDING ∧
    ((withdrawChangeRequest sex2 "r2").1 = .ok () ∧
      getChangeRequest (withdrawChangeRequest sex2 "r2").2 "r2" =
        .error (.notFound "r2") ∧
      (withdrawChangeRequest sex2 "r2").2.requests.all
        (fun x => !decide (x.id = "r2")) = true) :=
  ⟨by rfl, by rfl,
   (withdraw_requires_pending_and_deletes sex2 "r2" rex2 (by rfl)).2
     (by rfl)⟩

/-- C10: the service-level approve imposes no status precondition: for a
stored request whose status is REJECTED or APPROVED, if the live document
equals the snapshot, approve succeeds — the live document becomes the
proposed content and the stored status becomes APPROVED — while the
caller-side HTTP status guard (`status != PENDING`) is what rejects such
approvals. -/
theorem approve_has_no_status_precondition (empty : PromptType → C)
    (s : ServiceState C) (request_id reviewer_id : String)
    (feedback : Option String) (now : Nat) (r : ChangeRequest C)
    (hget : getChangeRequest s request_id = .ok r)
    (hst : r.status = ChangeRequestStatus.REJECTED ∨
      r.status = ChangeRequestStatus.APPROVED)
    (heq : loadCurrentContent empty s r.prompt_type = r.current_content) :
    (approveChangeRequest empty s request_id reviewer_id feedback now).1 =
      .ok { r with
             status := ChangeRequestStatus.APPROVED
             reviewed_by := some reviewer_id
             reviewed_at := some now
             review_feedback := feedback } ∧
    loadCurrentContent empty
        (approveChangeRequest empty s request_id reviewer_id feedback now).2
        r.prompt_type = r.proposed_content ∧
    getChangeRequest
        (approveChangeRequest empty s request_id reviewer_id feedback now).2
        request_id =
      .ok { r with
             status := ChangeRequestStatus.APPROVED
             reviewed_by := some reviewer_id
             reviewed_at := some now
             review_feedback := feedback } ∧
    routeApproveStatusBlocked r = true := by
  have h := approve_ok_eq empty s request_id reviewer_id feedback now r hget heq
  have hid : r.id = request_id :=
    findRequest_some_id (getChangeRequest_ok_iff.mp hget)
  refine ⟨by rw [h], ?_, ?_, ?_⟩
  · rw [h]
    simp [loadCurrentContent, saveChangeRequest, savePromptContent]
  · rw [h]
    have hid1 : ({ r with
        status := ChangeRequestStatus.APPROVED
        reviewed_by := some reviewer_id
        reviewed_at := some now
        review_feedback := feedback } : ChangeRequest C).id = request_id := hid
    rw [← hid1]
    exact getChangeRequest_saveChangeRequest _ _
  · rcases hst with hst | hst <;> simp [routeApproveStatusBlocked, hst]

theorem approve_has_no_status_precondition_witness :
    getChangeRequest sex6 "r6" = .ok rex6 ∧
    rex6.status = ChangeRequestStatus.REJECTED ∧
    loadCurrentContent exEmpty sex6 rex6.prompt_type = rex6.current_content ∧
    ((approveChangeRequest exEmpty sex6 "r6" "rev" none 9).1 =
        .ok { rex6 with
               status := ChangeRequestStatus.APPROVED
               reviewed_by := some "rev"
               reviewed_at := some 9
               review_feedback := none } ∧
      loadCurrentContent exEmpty
          (approveChangeRequest exEmpty sex6 "r6" "rev" none 9).2
          rex6.prompt_type = rex6.proposed_content ∧
      getChangeRequest (approveChangeRequest exEmpty sex6 "r6" "rev" none 9).2
          "r6" =
        .ok { rex6 with
               status := ChangeRequestStatus.APPROVED
               reviewed_by := some "rev"
               reviewed_at := some 9
               review_feedback := none } ∧
      routeApproveStatusBlocked rex6 = true) :=
  ⟨by rfl, by rfl, by decide,
   approve_has_no_status_precondition exEmpty sex6 "r6" "rev" none 9 rex6
     (by rfl) (Or.inl (by rfl)) (by decide)⟩

/-! ## Helper lemmas for the role model -/

theorem isDemotingLastApprover_iff (db : List UserRec) (u : UserRec)
    (new_role : UserRole) :
    isDemotingLastApprover db u new_role = true ↔
      (u.role = UserRole.APPROVER ∧ new_role ≠ UserRole.APPROVER ∧
        count_approvers db = 1) := by
  unfold isDemotingLastApprover
  split_ifs with h1 h2
  · simp [h1]
  · simp [h2]
  · rw [not_not] at h1
    simp [h1, h2]

theorem get_user_by_id_update (db : List UserRec) (user_id : String)
    (role : UserRole) :
    get_user_by_id (db_update_user_role db user_id role) user_id =
      (get_user_by_id db user_id).map
        (fun u => if u.id = user_id then { u with role := role } else u) := by
  unfold get_user_by_id db_update_user_role
  induction db with
  | nil => simp
  | cons y t ih =>
    by_cases hy : y.id = user_id
    · simp [hy]
    · simpa [hy] using ih

theorem one_le_count_approvers_iff (db : List UserRec) :
    1 ≤ count_approvers db ↔ ∃ w ∈ db, w.role = UserRole.APPROVER := by
  unfold count_approvers
  constructor
  · intro h
    cases hfl : db.filter (fun x => decide (x.role = UserRole.APPROVER)) with
    | nil => rw [hfl] at h; simp at h
    | cons w t =>
      have hw : w ∈ db.filter (fun x => decide (x.role = UserRole.APPROVER)) := by
        rw [hfl]
        exact List.mem_cons_self w t
      rcases List.mem_filter.mp hw with ⟨hmem, hrole⟩
      exact ⟨w, hmem, by simpa using hrole⟩
  · rintro ⟨w, hw, hr⟩
    have hmem : w ∈ db.filter (fun x => decide (x.role = UserRole.APPROVER)) :=
      List.mem_filter.mpr ⟨hw, by simp [hr]⟩
    exact List.length_pos.mpr (List.ne_nil_of_mem hmem)

theorem exists_other_approver (db : List UserRec) (user_id : String)
    (hnodup : (db.map (fun x => x.id)).Nodup)
    (h2 : 2 ≤ count_approvers db) :
    ∃ w ∈ db, w.role = UserRole.APPROVER ∧ w.id ≠ user_id := by
  unfold count_approvers at h2
  rcases hfl : db.filter (fun x => decide (x.role = UserRole.APPROVER)) with
    _ | ⟨w1, l1⟩
  · rw [hfl] at h2
    simp at h2
  · rcases hl1 : l1 with _ | ⟨w2, t⟩
    · rw [hfl, hl1] at h2
      simp at h2
    · have hw1f : w1 ∈ db.filter (fun x => decide (x.role = UserRole.APPROVER)) := by
        rw [hfl]
        exact List.mem_cons_self _ _
      have hw2f : w2 ∈ db.filter (fun x => decide (x.role = UserRole.APPROVER)) := by
        rw [hfl, hl1]
        exact List.mem_cons_of_mem _ (List.mem_cons_self _ _)
      rcases List.mem_filter.mp hw1f with ⟨hm1, hr1⟩
      rcases List.mem_filter.mp hw2f with ⟨hm2, hr2⟩
      have hids : ((db.filter
          (fun x => decide (x.role = UserRole.APPROVER))).map
            (fun x => x.id)).Nodup :=
        ((List.filter_sublist db).map _).nodup hnodup
      rw [hfl, hl1] at hids
      have hne : w1.id ≠ w2.id := by
        rcases List.nodup_cons.mp hids with ⟨hni, _⟩
        intro hc
        apply hni
        have hmm : w2.id ∈ List.map (fun x => x.id) (w2 :: t) :=
          List.mem_map.mpr ⟨w2, List.mem_cons_self _ _, rfl⟩
        simp only [hc]
        exact hmm
      by_cases hc : w1.id = user_id
      · exact ⟨w2, hm2, by simpa using hr2, fun h => hne (by rw [hc, h])⟩
      · exact ⟨w1, hm1, by simpa using hr1, hc⟩

theorem count_approvers_pos_after_update (db : List UserRec)
    (user_id : String) (role : UserRole) (u : UserRec)
    (hnodup : (db.map (fun x => x.id)).Nodup)
    (hfind : get_user_by_id db user_id = some u)
    (hsafe : ¬(u.role = UserRole.APPROVER ∧ role ≠ UserRole.APPROVER ∧
      count_approvers db = 1))
    (hpos : 1 ≤ count_approvers db) :
    1 ≤ count_approvers (db_update_user_role db user_id role) := by
  have hu_mem : u ∈ db := List.mem_of_find?_eq_some hfind
  have hu_id : u.id = user_id := by simpa using List.find?_some hfind
  by_cases hrA : role = UserRole.APPROVER
  · apply (one_le_count_approvers_iff _).mpr
    refine ⟨{ u with role := role }, ?_, hrA⟩
    exact List.mem_map.mpr ⟨u, hu_mem, by simp [hu_id]⟩
  · by_cases huA : u.role = UserRole.APPROVER
    · have hc1 : count_approvers db ≠ 1 := fun hc => hsafe ⟨huA, hrA, hc⟩
      have h2 : 2 ≤ count_approvers db := by omega
      rcases exists_other_approver db user_id hnodup h2 with
        ⟨w, hw, hwrole, hwid⟩
      apply (one_le_count_approvers_iff _).mpr
      exact ⟨w, List.mem_map.mpr ⟨w, hw, by simp [hwid]⟩, hwrole⟩
    · rcases (one_le_count_approvers_iff db).mp hpos with ⟨w, hw, hwrole⟩
      have hwu : w ≠ u := fun hc => huA (hc ▸ hwrole)
      have hwid : w.id ≠ user_id := by
        intro hc
        exact hwu (List.inj_on_of_nodup_map hnodup hw hu_mem
          (by rw [hc, hu_id]))
      apply (one_le_count_approvers_iff _).mpr
      exact ⟨w, List.mem_map.mpr ⟨w, hw, by simp [hwid]⟩, hwrole⟩

/-- C9: for an existing user, `update_user_role` raises `LastApproverError`
exactly when the target currently holds APPROVER, the new role is not
APPROVER, and exactly one approver exists; in every other case the update
succeeds (storing and returning the new role), and a successful update never
takes the approver count from positive to zero. -/
theorem update_user_role_last_approver_guard (db : List UserRec)
    (user_id : String) (role : UserRole) (u : UserRec)
    (hnodup : (db.map (fun x => x.id)).Nodup)
    (hfind : get_user_by_id db user_id = some u) :
    (update_user_role db user_id role = (.error .lastApprover, db) ↔
      (u.role = UserRole.APPROVER ∧ role ≠ UserRole.APPROVER ∧
        count_approvers db = 1)) ∧
    (¬(u.role = UserRole.APPROVER ∧ role ≠ UserRole.APPROVER ∧
        count_approvers db = 1) →
      update_user_role db user_id role =
        (.ok { u with role := role }, db_update_user_role db user_id role) ∧
      (1 ≤ count_approvers db →
        1 ≤ count_approvers (db_update_user_role db user_id role))) := by
  have hu_id : u.id = user_id := by simpa using List.find?_some hfind
  have hok : ¬(u.role = UserRole.APPROVER ∧ role ≠ UserRole.APPROVER ∧
      count_approvers db = 1) →
      update_user_role db user_id role =
        (.ok { u with role := role }, db_update_user_role db user_id role) := by
    intro hsafe
    have hguard : isDemotingLastApprover db u role = false := by
      rw [Bool.eq_false_iff]
      intro hc
      exact hsafe ((isDemotingLastApprover_iff db u role).mp hc)
    unfold update_user_role
    rw [hfind]
    simp [hguard, get_user_by_id_update, hfind, hu_id]
  refine ⟨⟨?_, ?_⟩, fun hsafe => ⟨hok hsafe, ?_⟩⟩
  · intro h
    by_cases hsafe : u.role = UserRole.APPROVER ∧ role ≠ UserRole.APPROVER ∧
        count_approvers db = 1
    · exact hsafe
    · exfalso
      rw [hok hsafe] at h
      exact Except.noConfusion (congrArg Prod.fst h)
  · intro htriple
    have hguard : isDemotingLastApprover db u role = true :=
      (isDemotingLastApprover_iff db u role).mpr htriple
    unfold update_user_role
    rw [hfind]
    simp [hguard]
  · exact count_approvers_pos_after_update db user_id role u hnodup hfind hsafe

theorem update_user_role_last_approver_guard_witness :
    (([{ id := "u1", role := UserRole.APPROVER },
       { id := "u2", role := UserRole.APPROVER }] :
        List UserRec).map (fun x => x.id)).Nodup ∧
    get_user_by_id
        [{ id := "u1", role := UserRole.APPROVER },
         { id := "u2", role := UserRole.APPROVER }] "u1" =
      some { id := "u1", role := UserRole.APPROVER } ∧
    ¬(UserRole.APPROVER = UserRole.APPROVER ∧
        UserRole.USER ≠ UserRole.APPROVER ∧
        count_approvers
          [{ id := "u1", role := UserRole.APPROVER },
           { id := "u2", role := UserRole.APPROVER }] = 1) ∧
    (update_user_role
        [{ id := "u1", role := UserRole.APPROVER },
         { id := "u2", role := UserRole.APPROVER }] "u1" UserRole.USER =
      (.ok { id := "u1", role := UserRole.USER },
       db_update_user_role
         [{ id := "u1", role := UserRole.APPROVER },
          { id := "u2", role := UserRole.APPROVER }] "u1" UserRole.USER) ∧
      (1 ≤ count_approvers
          [{ id := "u1", role := UserRole.APPROVER },
           { id := "u2", role := UserRole.APPROVER }] →
        1 ≤ count_approvers
          (db_update_user_role
            [{ id := "u1", role := UserRole.APPROVER },
             { id := "u2", role := UserRole.APPROVER }] "u1"
            UserRole.USER))) :=
  ⟨by decide, by rfl, by decide,
   (update_user_role_last_approver_guard
      [{ id := "u1", role := UserRole.APPROVER },
       { id := "u2", role := UserRole.APPROVER }] "u1" UserRole.USER
      { id := "u1", role := UserRole.APPROVER } (by decide) (by rfl)).2
     (by decide)⟩

/-! ## Helper lemmas for the coercion heuristic -/

theorem find?_eq_head?_filter {α : Type} (p : α → Bool) (l : List α) :
    l.find? p = (l.filter p).head? := by
  induction l with
  | nil => rfl
  | cons a t ih =>
    by_cases h : p a = true
    · rw [List.find?_cons_of_pos _ h, List.filter_cons_of_pos h]
      rfl
    · rw [List.find?_cons_of_neg _ h, List.filter_cons_of_neg h]
      exact ih

theorem coerceLoop_nil (rows : List ReasoningRow) (best : Option String)
    (score : Nat) (tie : Bool) :
    coerceLoop rows [] best score tie = (best, score, tie) := rfl

theorem coerceLoop_cons (rows : List ReasoningRow) (c : CategoryDefinition)
    (cs : List CategoryDefinition) (best : Option String) (score : Nat)
    (tie : Bool) :
    coerceLoop rows (c :: cs) best score tie =
      if c.definition.isEmpty then coerceLoop rows cs best score tie
      else if score < scoreForCat rows c.definition then
        coerceLoop rows cs (some c.name) (scoreForCat rows c.definition) false
      else if scoreForCat rows c.definition = score ∧
          scoreForCat rows c.definition ≠ 0 then
        coerceLoop rows cs best score true
      else coerceLoop rows cs best score tie := rfl

theorem maxCatScore_cons (rows : List ReasoningRow) (c : CategoryDefinition)
    (cs : List CategoryDefinition) :
    maxCatScore rows (c :: cs) =
      if c.definition.isEmpty then maxCatScore rows cs
      else max (scoreForCat rows c.definition) (maxCatScore rows cs) := rfl

theorem eligibleCats_cons_empty {c : CategoryDefinition}
    (cs : List CategoryDefinition) (hel : c.definition.isEmpty = true) :
    eligibleCats (c :: cs) = eligibleCats cs := by
  simp [eligibleCats, List.filter_cons, hel]

theorem eligibleCats_cons_nonempty {c : CategoryDefinition}
    (cs : List CategoryDefinition) (hel : c.definition.isEmpty = false) :
    eligibleCats (c :: cs) = c :: eligibleCats cs := by
  simp [eligibleCats, List.filter_cons, hel]

theorem achieversAt_cons_empty {c : CategoryDefinition}
    (rows : List ReasoningRow) (cs : List CategoryDefinition)
    (hel : c.definition.isEmpty = true) (s : Nat) :
    achieversAt rows (c :: cs) s = achieversAt rows cs s := by
  simp [achieversAt, eligibleCats_cons_empty cs hel]

theorem achieversAt_cons_nonempty {c : CategoryDefinition}
    (rows : List ReasoningRow) (cs : List CategoryDefinition)
    (hel : c.definition.isEmpty = false) (s : Nat) :
    achieversAt rows (c :: cs) s =
      if scoreForCat rows c.definition = s then c :: achieversAt rows cs s
      else achieversAt rows cs s := by
  rw [achieversAt, eligibleCats_cons_nonempty cs hel, List.filter_cons]
  by_cases h : scoreForCat rows c.definition = s <;> simp [h, achieversAt]

theorem maxCatScore_nil_rows (cats : List CategoryDefinition) :
    maxCatScore [] cats = 0 := by
  induction cats with
  | nil => rfl
  | cons c cs ih =>
    rw [maxCatScore_cons]
    by_cases h : c.definition.isEmpty <;> simp [h, ih, scoreForCat]

/-- Characterisation of the `for cat in categories` loop of
`_coerce_category_from_excerpt`: starting from `(best, score, tie)`, either
some candidate beats `score`, in which case the final state carries the
maximal candidate score, the first category achieving it, and a tie flag
recording whether at least two candidates achieve it; or no candidate beats
`score` and the state is unchanged except that the tie flag is raised when a
candidate equals a nonzero `score`. -/
theorem coerceLoop_spec (rows : List ReasoningRow) :
    ∀ (cats : List CategoryDefinition) (best : Option String) (score : Nat)
      (tie : Bool),
    coerceLoop rows cats best score tie =
      if score < maxCatScore rows cats then
        (((eligibleCats cats).find? (fun c =>
            decide (scoreForCat rows c.definition =
              maxCatScore rows cats))).map (fun c => c.name),
         maxCatScore rows cats,
         decide (2 ≤ (achieversAt rows cats (maxCatScore rows cats)).length))
      else
        (best, score,
         tie || decide (score ≠ 0 ∧ 1 ≤ (achieversAt rows cats score).length)) := by
  intro cats
  induction cats with
  | nil =>
    intro best score tie
    simp [coerceLoop_nil, maxCatScore, achieversAt, eligibleCats]
  | cons c cs ih =>
    intro best score tie
    rw [coerceLoop_cons, maxCatScore_cons]
    by_cases hel : c.definition.isEmpty
    · rw [if_pos hel, if_pos hel, ih best score tie,
        eligibleCats_cons_empty cs hel]
      by_cases hlt : score < maxCatScore rows cs
      · rw [if_pos hlt, if_pos hlt, achieversAt_cons_empty rows cs hel]
      · rw [if_neg hlt, if_neg hlt, achieversAt_cons_empty rows cs hel]
    · rw [if_neg hel, if_neg hel]
      have helF : c.definition.isEmpty = false := Bool.eq_false_iff.mpr hel
      set sc := scoreForCat rows c.definition with hsc
      set M := maxCatScore rows cs with hM
      rw [eligibleCats_cons_nonempty cs helF]
      by_cases hA : score < sc
      · rw [if_pos hA, ih (some c.name) sc false]
        have hmax : score < max sc M := lt_of_lt_of_le hA (le_max_left _ _)
        rw [if_pos hmax]
        by_cases hA1 : sc < M
        · have hmeq : max sc M = M := max_eq_right (le_of_lt hA1)
          rw [if_pos hA1, hmeq]
          have hcne : ¬ (decide (sc = M) = true) := by simp; omega
          rw [List.find?_cons_of_neg _ (by simpa using hcne),
            achieversAt_cons_nonempty rows cs helF,
            if_neg (by omega : ¬ sc = M)]
        · have hle : M ≤ sc := le_of_not_lt hA1
          have hmeq : max sc M = sc := max_eq_left hle
          rw [if_neg hA1, hmeq]
          rw [List.find?_cons_of_pos _ (by simp),
            achieversAt_cons_nonempty rows cs helF, if_pos rfl]
          have hsc0 : sc ≠ 0 := by omega
          have hiff : (sc ≠ 0 ∧ 1 ≤ (achieversAt rows cs sc).length) ↔
              (2 ≤ (achieversAt rows cs sc).length + 1) := by
            constructor
            · rintro ⟨_, h⟩; omega
            · intro h; exact ⟨hsc0, by omega⟩
          simp [hiff]
      · rw [if_neg hA]
        have hsle : sc ≤ score := le_of_not_lt hA
        by_cases hB : sc = score ∧ sc ≠ 0
        · rw [if_pos hB, ih best score true]
          rcases hB with ⟨hBeq, hB0⟩
          by_cases hB1 : score < M
          · have hmax : score < max sc M := lt_of_lt_of_le hB1 (le_max_right _ _)
            have hmeq : max sc M = M := max_eq_right (by omega)
            rw [if_pos hB1, if_pos hmax, hmeq]
            rw [List.find?_cons_of_neg _ (by simp; omega),
              achieversAt_cons_nonempty rows cs helF,
              if_neg (by omega : ¬ sc = M)]
          · have hmeq : max sc M = score := by
              rw [hBeq]; exact max_eq_left (by omega)
            have hmax : ¬ score < max sc M := by rw [hmeq]; omega
            rw [if_neg hB1, if_neg hmax]
            rw [achieversAt_cons_nonempty rows cs helF, if_pos hBeq]
            simp only [List.length_cons, Bool.or_eq_true]
            have hdec : decide (score ≠ 0 ∧
                1 ≤ (achieversAt rows cs score).length + 1) = true := by
              simp; omega
            rw [hdec]
            simp
        · rw [if_neg hB, ih best score tie]
          by_cases hC : score < M
          · have hmax : score < max sc M := lt_of_lt_of_le hC (le_max_right _ _)
            have hmeq : max sc M = M := max_eq_right (by omega)
            rw [if_pos hC, if_pos hmax, hmeq]
            rw [List.find?_cons_of_neg _ (by simp; omega),
              achieversAt_cons_nonempty rows cs helF,
              if_neg (by omega : ¬ sc = M)]
          · have hmax : ¬ score < max sc M := by
              have : max sc M ≤ score := max_le hsle (by omega)
              omega
            rw [if_neg hC, if_neg hmax]
            rw [achieversAt_cons_nonempty rows cs helF]
            by_cases hceq : sc = score
            · have hsc0 : sc = 0 := by
                by_contra hne
                exact hB ⟨hceq, hne⟩
              rw [if_pos hceq]
              have hz : score = 0 := by omega
              simp [hz]
            · rw [if_neg hceq]

/-- The loop lemma instantiated at the initial state and combined with the
empty-rows guard: the heuristic equals its specification-side restatement. -/
theorem coerce_eq_coerceSpec {Conf : Type} (insight : AIInsight Conf)
    (cats : List CategoryDefinition) :
    coerceCategoryFromExcerpt insight cats =
      coerceSpec insight.reasoning_table cats := by
  unfold coerceCategoryFromExcerpt coerceSpec
  by_cases hrows : insight.reasoning_table.isEmpty
  · have hr : insight.reasoning_table = [] := by
      simpa using hrows
    rw [if_pos hrows]
    rw [hr, maxCatScore_nil_rows]
    simp
  · rw [if_neg hrows]
    rw [coerceLoop_spec insight.reasoning_table cats none 0 false]
    by_cases hM : maxCatScore insight.reasoning_table cats = 0
    · rw [if_neg (by omega : ¬ 0 < maxCatScore insight.reasoning_table cats)]
      simp [hM]
    · rw [if_pos (by omega : 0 < maxCatScore insight.reasoning_table cats)]
      by_cases htie :
          2 ≤ (achieversAt insight.reasoning_table cats
            (maxCatScore insight.reasoning_table cats)).length
      · simp [htie, hM]
      · have hcond : ¬ (maxCatScore insight.reasoning_table cats = 0 ∨
            2 ≤ (achieversAt insight.reasoning_table cats
              (maxCatScore insight.reasoning_table cats)).length) := by tauto
        rw [if_neg hcond]
        have hh : (achieversAt insight.reasoning_table cats
            (maxCatScore insight.reasoning_table cats)).head? =
            (eligibleCats cats).find? (fun c =>
              decide (scoreForCat insight.reasoning_table c.definition =
                maxCatScore insight.reasoning_table cats)) := by
          rw [achieversAt, find?_eq_head?_filter]
        rw [hh]
        simp [htie, hM]

/-- A single category whose name is the empty string and whose definition is
matched verbatim by the only reasoning excerpt: the unique nonzero winner of
the coercion is named `""`. -/
def cexRows : List ReasoningRow :=
  [{ category_excerpt := "def B text", news_excerpt := "n", reasoning := "r" }]

def cexCats : List CategoryDefinition :=
  [{ name := "", definition := "def B text" }]

def cexInsight : AIInsight Nat :=
  { category := "X", reasoning_table := cexRows, confidence := 0 }

/-- C5 counterexample: the claim says that whenever a unique best-scoring
category exists at a nonzero score, its name replaces the invalid category
and the result is accepted.  On `cexCats` the unique nonzero winner is the
category named `""` (best score 10, a single achiever), yet `analyze` raises
the original category-not-allowed error instead of substituting: the Python
guard `if coerced:` treats the empty winning name as falsy. -/
theorem coercion_unique_empty_winner_counterexample :
    coerceSpec cexRows cexCats = some "" ∧
    maxCatScore cexRows cexCats = 10 ∧
    (achieversAt cexRows cexCats 10).length = 1 ∧
    applyCategoryCheck cexCats cexInsight =
      .error (.categoryNotAllowed "X") ∧
    applyCategoryCheck cexCats cexInsight ≠
      .ok { cexInsight with category := "" } :=
  ⟨by rfl, by rfl, by rfl, by rfl, by
    rw [show applyCategoryCheck cexCats cexInsight =
      .error (.categoryNotAllowed "X") from rfl]
    intro h
    exact Except.noConfusion h⟩

/-- C5 amended: the category-coercion heuristic agrees with its
specification: each candidate category (non-empty definition) is scored by
the longest trimmed non-empty reasoning excerpt occurring verbatim in its
definition; coercion fails — and `analyze` raises the original
category-not-allowed error — when the best score is 0 or two candidates tie
at the best nonzero score; otherwise the unique best-scoring category's name
replaces the invalid category with all other fields unchanged, except when
that winning name is the empty string, in which case the original error is
raised as well (the `if coerced:` truthiness guard). -/
theorem coercion_heuristic_matches_spec_with_empty_guard {Conf : Type}
    (insight : AIInsight Conf) (categories : List CategoryDefinition) :
    coerceCategoryFromExcerpt insight categories =
      coerceSpec insight.reasoning_table categories ∧
    applyCategoryCheck categories insight =
      (if (categories.map (fun c => c.name)).contains insight.category then
        .ok insight
      else
        match coerceSpec insight.reasoning_table categories with
        | some coerced =>
          if coerced.isEmpty then
            .error (.categoryNotAllowed insight.category)
          else .ok { insight with category := coerced }
        | none => .error (.categoryNotAllowed insight.category)) := by
  refine ⟨coerce_eq_coerceSpec insight categories, ?_⟩
  unfold applyCategoryCheck
  rw [coerce_eq_coerceSpec insight categories]

end PromptEnhancer
